import Mathlib

/-!
Shallow embedding of `pkg/prommetrics/prommetrics.go` (KEDA metrics recorder).

The process-wide Prometheus registry state is modelled explicitly as a record
of label-keyed partial maps: counters hold natural numbers (the client
library's counter `Inc` performs exact integer arithmetic), gauges hold
rationals (exact model of float set/inc/dec in the ranges the module uses).
A data point that has never been created is `none`; lazy creation on first
write is `none ↦ some v`.

A Go function that can panic is embedded with result type `Option _`, where
`none` models a panic: the library's `With` panics when the supplied label
map is inconsistent with the metric vector's declared label names, while
`GetMetricWith` returns that inconsistency as an error value, which the
source logs and discards.  `resolveLabels` below performs exactly that
consistency check (same number of labels, every declared name present).
-/

namespace Prommetrics

/-- A `prometheus.Labels` value: a map from label name to label value,
embedded as an association list. -/
abbrev Labels := List (String × String)

/-- The key of a data point inside a metric vector: the tuple of label
values, ordered by the vector's declared label names. -/
abbrev SeriesKey := List String

/-- Counter series: partial map from label-value tuples to counts. -/
abbrev CounterData := SeriesKey → Option Nat

/-- Gauge series: partial map from label-value tuples to values. -/
abbrev GaugeData := SeriesKey → Option ℚ

/-- Consistency check and resolution performed by the client library when a
label map is supplied to a metric vector: the map must have exactly the
declared number of labels and contain every declared label name; the data
point key is the tuple of values in declared-name order. -/
def resolveLabels (names : List String) (ls : Labels) : Option SeriesKey :=
  if ls.length == names.length && names.all (fun n => (ls.lookup n).isSome) then
    some (names.map (fun n => ((ls.lookup n).getD "")))
  else
    none

/-- Consistency check performed by `WithLabelValues`: the number of supplied
values must equal the number of declared label names. -/
def resolveLabelValues (names : List String) (vals : List String) : Option SeriesKey :=
  if vals.length == names.length then some vals else none

/-- Overwrite (or lazily create) the data point at `key`. -/
def gaugeSetAt (d : GaugeData) (key : SeriesKey) (v : ℚ) : GaugeData :=
  fun k => if k = key then some v else d k

/-- Add `v` to the data point at `key`, creating it at 0 first if absent
(gauge `Inc` is `+1`, gauge `Dec` is `+(-1)`). -/
def gaugeAddAt (d : GaugeData) (key : SeriesKey) (v : ℚ) : GaugeData :=
  fun k => if k = key then some ((d key).getD 0 + v) else d k

/-- Counter `Inc` at `key`, creating the data point at 0 first if absent. -/
def counterIncAt (d : CounterData) (key : SeriesKey) : CounterData :=
  fun k => if k = key then some ((d key).getD 0 + 1) else d k

/-- Get-or-create at `key` without changing an existing value: the side
effect of `GetMetricWith` used by the zero-initializing paths. -/
def counterEnsureAt (d : CounterData) (key : SeriesKey) : CounterData :=
  fun k => if k = key then some ((d key).getD 0) else d k

/-- Embeds `vec.With(labels).Set(v)` on a gauge vector; `none` is the panic
`With` raises on an inconsistent label map. -/
def gaugeWithSet (names : List String) (d : GaugeData) (ls : Labels) (v : ℚ) :
    Option GaugeData :=
  (resolveLabels names ls).map (fun key => gaugeSetAt d key v)

/-- Embeds `vec.With(labels).Inc()` on a counter vector. -/
def counterWithInc (names : List String) (d : CounterData) (ls : Labels) :
    Option CounterData :=
  (resolveLabels names ls).map (fun key => counterIncAt d key)

/-- Embeds `vec.GetMetricWith(labels)` on a counter vector: returns the
updated series together with the error value (`some` message when the label
map is inconsistent, in which case nothing is created). -/
def counterGetMetricWith (names : List String) (d : CounterData) (ls : Labels) :
    CounterData × Option String :=
  match resolveLabels names ls with
  | some key => (counterEnsureAt d key, none)
  | none => (d, some "inconsistent label cardinality")

/-- Embeds `vec.WithLabelValues(vals...).Set(v)` on a gauge vector. -/
def gaugeWithValuesSet (names : List String) (d : GaugeData) (vals : List String)
    (v : ℚ) : Option GaugeData :=
  (resolveLabelValues names vals).map (fun key => gaugeSetAt d key v)

/-- Embeds `vec.WithLabelValues(vals...).Inc()` / `.Dec()` on a gauge vector
(`v = 1` for `Inc`, `v = -1` for `Dec`). -/
def gaugeWithValuesAdd (names : List String) (d : GaugeData) (vals : List String)
    (v : ℚ) : Option GaugeData :=
  (resolveLabelValues names vals).map (fun key => gaugeAddAt d key v)

/-! Constants from the source file. -/

def ClusterTriggerAuthenticationResource : String := "cluster_trigger_authentication"

def TriggerAuthenticationResource : String := "trigger_authentication"

def ScaledObjectResource : String := "scaled_object"

def ScaledJobResource : String := "scaled_job"

def DefaultPromMetricsNamespace : String := "keda"

/-- Declared label names of the ScaledObject per-scaler metric vectors. -/
def scaledObjectMetricLabels : List String :=
  ["namespace", "metric", "scaledObject", "scaler", "scalerIndex"]

/-- Declared label names of the ScaledJob per-scaler metric vectors. -/
def scaledJobmetricLabels : List String :=
  ["namespace", "metric", "scaledJob", "scaler", "scalerIndex"]

/-- Declared label names of the `keda_scaled_object_errors` counter vector. -/
def scaledObjectErrorLabels : List String := ["namespace", "scaledObject"]

/-- Declared label names of the `keda_scaled_job_errors` counter vector. -/
def scaledJobErrorLabels : List String := ["namespace", "scaledJob"]

/-- Declared label names of the unlabeled `keda_scaler_errors_total` counter. -/
def scalerErrorsTotalLabels : List String := []

/-- Declared label names of `keda_trigger_totals`. -/
def triggerTotalsLabels : List String := ["type"]

/-- Declared label names of `keda_resource_totals`. -/
def crdTotalsLabels : List String := ["type", "namespace"]

/-- Declared label names of `keda_internal_scale_loop_latency`. -/
def internalLoopLatencyLabels : List String := ["namespace", "type", "resource"]

/-- Declared label names of `keda_build_info`. -/
def buildInfoLabels : List String :=
  ["version", "git_commit", "goversion", "goos", "goarch"]

/-- The process-wide metric state: one field per registered series, plus the
error log written by the zero-initializing paths. -/
structure MetricsState where
  buildInfo : GaugeData
  scalerErrorsTotal : CounterData
  scaledObjectScalerMetricsValue : GaugeData
  scaledJobScalerMetricsValue : GaugeData
  scaledObjectScalerMetricsLatency : GaugeData
  scaledJobScalerMetricsLatency : GaugeData
  scaledObjectScalerActive : GaugeData
  scaledJobScalerActive : GaugeData
  scaledObjectScalerErrors : CounterData
  scaledJobScalerErrors : CounterData
  scaledObjectErrors : CounterData
  scaledJobErrors : CounterData
  triggerTotals : GaugeData
  crdTotals : GaugeData
  internalLoopLatency : GaugeData
  log : List String

/-- Fresh state right after registration: no data point exists yet. -/
def initialState : MetricsState where
  buildInfo := fun _ => none
  scalerErrorsTotal := fun _ => none
  scaledObjectScalerMetricsValue := fun _ => none
  scaledJobScalerMetricsValue := fun _ => none
  scaledObjectScalerMetricsLatency := fun _ => none
  scaledJobScalerMetricsLatency := fun _ => none
  scaledObjectScalerActive := fun _ => none
  scaledJobScalerActive := fun _ => none
  scaledObjectScalerErrors := fun _ => none
  scaledJobScalerErrors := fun _ => none
  scaledObjectErrors := fun _ => none
  scaledJobErrors := fun _ => none
  triggerTotals := fun _ => none
  crdTotals := fun _ => none
  internalLoopLatency := fun _ => none
  log := []

/-- Embeds `getLabels`.  The result is in the panic monad for uniformity but
the source function is total: for an unrecognized resource type it returns
the nil map (embedded as the empty association list) below an
unreachable-code comment — it does not panic and returns no error. -/
def getLabels (ns scaledResource scaler : String) (scalerIndex : Int)
    (metric resourceType : String) : Option Labels :=
  if resourceType = ScaledObjectResource then
    some [("namespace", ns), ("scaledObject", scaledResource), ("scaler", scaler),
      ("scalerIndex", toString scalerIndex), ("metric", metric)]
  else if resourceType = ScaledJobResource then
    some [("namespace", ns), ("scaledJob", scaledResource), ("scaler", scaler),
      ("scalerIndex", toString scalerIndex), ("metric", metric)]
  else
    some []

/-- The data point key `getLabels` resolves to on either per-scaler label
schema (declared-name order: namespace, metric, resource, scaler, index). -/
def scalerKey (ns scaledResource scaler : String) (scalerIndex : Int)
    (metric : String) : SeriesKey :=
  [ns, metric, scaledResource, scaler, toString scalerIndex]

/-- Embeds `RecordScalerMetric`. -/
def RecordScalerMetric (ns scaledResource scaler : String) (scalerIndex : Int)
    (metric : String) (value : ℚ) (resourceType : String) (s : MetricsState) :
    Option MetricsState :=
  (getLabels ns scaledResource scaler scalerIndex metric resourceType).bind fun labels =>
  if resourceType = ScaledObjectResource then
    (gaugeWithSet scaledObjectMetricLabels s.scaledObjectScalerMetricsValue labels value).map
      fun d => { s with scaledObjectScalerMetricsValue := d }
  else if resourceType = ScaledJobResource then
    (gaugeWithSet scaledJobmetricLabels s.scaledJobScalerMetricsValue labels value).map
      fun d => { s with scaledJobScalerMetricsValue := d }
  else
    some s

/-- Embeds `RecordScalerLatency`. -/
def RecordScalerLatency (ns scaledResource scaler : String) (scalerIndex : Int)
    (metric : String) (value : ℚ) (resourceType : String) (s : MetricsState) :
    Option MetricsState :=
  (getLabels ns scaledResource scaler scalerIndex metric resourceType).bind fun labels =>
  if resourceType = ScaledObjectResource then
    (gaugeWithSet scaledObjectMetricLabels s.scaledObjectScalerMetricsLatency labels value).map
      fun d => { s with scaledObjectScalerMetricsLatency := d }
  else if resourceType = ScaledJobResource then
    (gaugeWithSet scaledJobmetricLabels s.scaledJobScalerMetricsLatency labels value).map
      fun d => { s with scaledJobScalerMetricsLatency := d }
  else
    some s

/-- Embeds `RecordScalableObjectLatency`. -/
def RecordScalableObjectLatency (ns name : String) (isScaledObject : Bool)
    (value : ℚ) (s : MetricsState) : Option MetricsState :=
  let resourceType := if isScaledObject then "scaledobject" else "scaledjob"
  (gaugeWithValuesSet internalLoopLatencyLabels s.internalLoopLatency
      [ns, resourceType, name] value).map
    fun d => { s with internalLoopLatency := d }

/-- Embeds `RecordScalerActive`. -/
def RecordScalerActive (ns scaledResource scaler : String) (scalerIndex : Int)
    (metric : String) (active : Bool) (resourceType : String) (s : MetricsState) :
    Option MetricsState :=
  let activeVal : ℚ := if active then 1 else 0
  (getLabels ns scaledResource scaler scalerIndex metric resourceType).bind fun labels =>
  if resourceType = ScaledObjectResource then
    (gaugeWithSet scaledObjectMetricLabels s.scaledObjectScalerActive labels activeVal).map
      fun d => { s with scaledObjectScalerActive := d }
  else if resourceType = ScaledJobResource then
    (gaugeWithSet scaledJobmetricLabels s.scaledJobScalerActive labels activeVal).map
      fun d => { s with scaledJobScalerActive := d }
  else
    some s

/-- Embeds `RecordScaledObjectError`; `err = true` models a non-nil error. -/
def RecordScaledObjectError (ns scaledResource : String) (err : Bool)
    (resourceType : String) (s : MetricsState) : Option MetricsState :=
  if resourceType = ScaledObjectResource then
    let labels : Labels := [("namespace", ns), ("scaledObject", scaledResource)]
    if err then
      (counterWithInc scaledObjectErrorLabels s.scaledObjectErrors labels).map
        fun d => { s with scaledObjectErrors := d }
    else
      let r := counterGetMetricWith scaledObjectErrorLabels s.scaledObjectErrors labels
      some { s with scaledObjectErrors := r.1,
                    log := match r.2 with
                           | some msg => s.log ++ [msg]
                           | none => s.log }
  else if resourceType = ScaledJobResource then
    let labels : Labels := [("namespace", ns), ("scaledJob", scaledResource)]
    if err then
      (counterWithInc scaledJobErrorLabels s.scaledJobErrors labels).map
        fun d => { s with scaledJobErrors := d }
    else
      let r := counterGetMetricWith scaledJobErrorLabels s.scaledJobErrors labels
      some { s with scaledJobErrors := r.1,
                    log := match r.2 with
                           | some msg => s.log ++ [msg]
                           | none => s.log }
  else
    some s

/-- Embeds `RecordScalerError`; `err = true` models a non-nil error. -/
def RecordScalerError (ns scaledResource scaler : String) (scalerIndex : Int)
    (metric : String) (err : Bool) (resourceType : String) (s : MetricsState) :
    Option MetricsState :=
  (getLabels ns scaledResource scaler scalerIndex metric resourceType).bind fun labels =>
  if resourceType = ScaledObjectResource then
    if err then
      (counterWithInc scaledObjectMetricLabels s.scaledObjectScalerErrors labels).bind fun d =>
      (RecordScaledObjectError ns scaledResource err resourceType
          { s with scaledObjectScalerErrors := d }).bind fun s2 =>
      (counterWithInc scalerErrorsTotalLabels s2.scalerErrorsTotal []).map fun dt =>
        { s2 with scalerErrorsTotal := dt }
    else
      let r := counterGetMetricWith scaledObjectMetricLabels s.scaledObjectScalerErrors labels
      some { s with scaledObjectScalerErrors := r.1,
                    log := match r.2 with
                           | some msg => s.log ++ [msg]
                           | none => s.log }
  else if resourceType = ScaledJobResource then
    if err then
      (counterWithInc scaledJobmetricLabels s.scaledJobScalerErrors labels).bind fun d =>
      (RecordScaledObjectError ns scaledResource err resourceType
          { s with scaledJobScalerErrors := d }).bind fun s2 =>
      (counterWithInc scalerErrorsTotalLabels s2.scalerErrorsTotal []).map fun dt =>
        { s2 with scalerErrorsTotal := dt }
    else
      let r := counterGetMetricWith scaledJobmetricLabels s.scaledJobScalerErrors labels
      some { s with scaledJobScalerErrors := r.1,
                    log := match r.2 with
                           | some msg => s.log ++ [msg]
                           | none => s.log }
  else
    some s

/-- Embeds `RecordBuildInfo`; the version and runtime strings come from
outside this module and are passed as parameters. -/
def RecordBuildInfo (v gitCommit goVersion goos goarch : String)
    (s : MetricsState) : Option MetricsState :=
  (gaugeWithValuesSet buildInfoLabels s.buildInfo
      [v, gitCommit, goVersion, goos, goarch] 1).map
    fun d => { s with buildInfo := d }

/-- Iterate `RecordScalerError` with a non-nil error `k` times from a given
state, propagating a panic of any call. -/
def iterateRecordScalerError (ns scaledResource scaler : String) (scalerIndex : Int)
    (metric resourceType : String) : Nat → MetricsState → Option MetricsState
  | 0, s => some s
  | Nat.succ k, s =>
    (RecordScalerError ns scaledResource scaler scalerIndex metric true resourceType s).bind
      (iterateRecordScalerError ns scaledResource scaler scalerIndex metric resourceType k)

/-- The state change one non-nil-error `RecordScalerError` call performs for
the scaled-object kind. -/
def bumpScaledObjectError (ns scaledResource scaler : String) (scalerIndex : Int)
    (metric : String) (s : MetricsState) : MetricsState :=
  { s with
    scaledObjectScalerErrors :=
      counterIncAt s.scaledObjectScalerErrors (scalerKey ns scaledResource scaler scalerIndex metric),
    scaledObjectErrors := counterIncAt s.scaledObjectErrors [ns, scaledResource],
    scalerErrorsTotal := counterIncAt s.scalerErrorsTotal [] }

/-- The state change one non-nil-error `RecordScalerError` call performs for
the scaled-job kind. -/
def bumpScaledJobError (ns scaledResource scaler : String) (scalerIndex : Int)
    (metric : String) (s : MetricsState) : MetricsState :=
  { s with
    scaledJobScalerErrors :=
      counterIncAt s.scaledJobScalerErrors (scalerKey ns scaledResource scaler scalerIndex metric),
    scaledJobErrors := counterIncAt s.scaledJobErrors [ns, scaledResource],
    scalerErrorsTotal := counterIncAt s.scalerErrorsTotal [] }

/-- Embeds `IncrementTriggerTotal`. -/
def IncrementTriggerTotal (triggerType : String) (s : MetricsState) :
    Option MetricsState :=
  if triggerType ≠ "" then
    (gaugeWithValuesAdd triggerTotalsLabels s.triggerTotals [triggerType] 1).map
      fun d => { s with triggerTotals := d }
  else
    some s

/-- Embeds `DecrementTriggerTotal`. -/
def DecrementTriggerTotal (triggerType : String) (s : MetricsState) :
    Option MetricsState :=
  if triggerType ≠ "" then
    (gaugeWithValuesAdd triggerTotalsLabels s.triggerTotals [triggerType] (-1)).map
      fun d => { s with triggerTotals := d }
  else
    some s

/-- Embeds `IncrementCRDTotal`. -/
def IncrementCRDTotal (crdType nsArg : String) (s : MetricsState) :
    Option MetricsState :=
  let ns2 := if nsArg = "" then "default" else nsArg
  (gaugeWithValuesAdd crdTotalsLabels s.crdTotals [crdType, ns2] 1).map
    fun d => { s with crdTotals := d }

/-- Embeds `DecrementCRDTotal`. -/
def DecrementCRDTotal (crdType nsArg : String) (s : MetricsState) :
    Option MetricsState :=
  let ns2 := if nsArg = "" then "default" else nsArg
  (gaugeWithValuesAdd crdTotalsLabels s.crdTotals [crdType, ns2] (-1)).map
    fun d => { s with crdTotals := d }

/-! Helper lemmas. -/

@[simp]
lemma counterIncAt_self (d : CounterData) (key : SeriesKey) :
    counterIncAt d key key = some ((d key).getD 0 + 1) := by
  simp [counterIncAt]

@[simp]
lemma counterEnsureAt_self (d : CounterData) (key : SeriesKey) :
    counterEnsureAt d key key = some ((d key).getD 0) := by
  simp [counterEnsureAt]

lemma counterEnsureAt_ne (d : CounterData) (key k : SeriesKey) (h : k ≠ key) :
    counterEnsureAt d key k = d k := by
  simp [counterEnsureAt, h]

@[simp]
lemma gaugeSetAt_self (d : GaugeData) (key : SeriesKey) (v : ℚ) :
    gaugeSetAt d key v key = some v := by
  simp [gaugeSetAt]

@[simp]
lemma gaugeAddAt_self (d : GaugeData) (key : SeriesKey) (v : ℚ) :
    gaugeAddAt d key v key = some ((d key).getD 0 + v) := by
  simp [gaugeAddAt]

lemma recordScalerError_so_step (ns res sc m : String) (i : Int) (s : MetricsState) :
    RecordScalerError ns res sc i m true ScaledObjectResource s =
      some (bumpScaledObjectError ns res sc i m s) := rfl

lemma recordScalerError_sj_step (ns res sc m : String) (i : Int) (s : MetricsState) :
    RecordScalerError ns res sc i m true ScaledJobResource s =
      some (bumpScaledJobError ns res sc i m s) := rfl

lemma iterate_so_eq (ns res sc m : String) (i : Int) (k : Nat) :
    ∀ s : MetricsState,
      iterateRecordScalerError ns res sc i m ScaledObjectResource k s =
        some ((bumpScaledObjectError ns res sc i m)^[k] s) := by
  induction k with
  | zero => intro s; rfl
  | succ k ih =>
    intro s
    simp only [iterateRecordScalerError, recordScalerError_so_step, Option.some_bind,
      Function.iterate_succ_apply]
    exact ih (bumpScaledObjectError ns res sc i m s)

lemma iterate_sj_eq (ns res sc m : String) (i : Int) (k : Nat) :
    ∀ s : MetricsState,
      iterateRecordScalerError ns res sc i m ScaledJobResource k s =
        some ((bumpScaledJobError ns res sc i m)^[k] s) := by
  induction k with
  | zero => intro s; rfl
  | succ k ih =>
    intro s
    simp only [iterateRecordScalerError, recordScalerError_sj_step, Option.some_bind,
      Function.iterate_succ_apply]
    exact ih (bumpScaledJobError ns res sc i m s)

lemma bump_so_iterate_fields (ns res sc m : String) (i : Int) (k : Nat) (s : MetricsState)
    (hk : 0 < k) :
    ((bumpScaledObjectError ns res sc i m)^[k] s).scaledObjectScalerErrors
        (scalerKey ns res sc i m) =
      some ((s.scaledObjectScalerErrors (scalerKey ns res sc i m)).getD 0 + k) ∧
    ((bumpScaledObjectError ns res sc i m)^[k] s).scaledObjectErrors [ns, res] =
      some ((s.scaledObjectErrors [ns, res]).getD 0 + k) ∧
    ((bumpScaledObjectError ns res sc i m)^[k] s).scalerErrorsTotal [] =
      some ((s.scalerErrorsTotal []).getD 0 + k) := by
  induction k with
  | zero => exact absurd hk (lt_irrefl 0)
  | succ k ih =>
    rcases Nat.eq_zero_or_pos k with rfl | hkpos
    · simp [bumpScaledObjectError]
    · obtain ⟨h1, h2, h3⟩ := ih hkpos
      rw [Function.iterate_succ_apply']
      refine ⟨?_, ?_, ?_⟩
      · simp [bumpScaledObjectError, h1, Nat.add_assoc]
      · simp [bumpScaledObjectError, h2, Nat.add_assoc]
      · simp [bumpScaledObjectError, h3, Nat.add_assoc]

lemma bump_sj_iterate_fields (ns res sc m : String) (i : Int) (k : Nat) (s : MetricsState)
    (hk : 0 < k) :
    ((bumpScaledJobError ns res sc i m)^[k] s).scaledJobScalerErrors
        (scalerKey ns res sc i m) =
      some ((s.scaledJobScalerErrors (scalerKey ns res sc i m)).getD 0 + k) ∧
    ((bumpScaledJobError ns res sc i m)^[k] s).scaledJobErrors [ns, res] =
      some ((s.scaledJobErrors [ns, res]).getD 0 + k) ∧
    ((bumpScaledJobError ns res sc i m)^[k] s).scalerErrorsTotal [] =
      some ((s.scalerErrorsTotal []).getD 0 + k) := by
  induction k with
  | zero => exact absurd hk (lt_irrefl 0)
  | succ k ih =>
    rcases Nat.eq_zero_or_pos k with rfl | hkpos
    · simp [bumpScaledJobError]
    · obtain ⟨h1, h2, h3⟩ := ih hkpos
      rw [Function.iterate_succ_apply']
      refine ⟨?_, ?_, ?_⟩
      · simp [bumpScaledJobError, h1, Nat.add_assoc]
      · simp [bumpScaledJobError, h2, Nat.add_assoc]
      · simp [bumpScaledJobError, h3, Nat.add_assoc]

lemma so_ne_sj : ScaledObjectResource ≠ ScaledJobResource := by decide

/-- Claim C1: for every valid label tuple and resourceKind in the two known
kinds, calling `RecordScalerError` with a non-nil error exactly `k` times
(`k > 0`) increments the per-scaler error counter at the resolved tuple by
exactly `k`, the resource-level error counter at (namespace, resourceName)
by exactly `k` (for the scaled-job kind, on the scaled-job error series),
and the unlabeled global scaler-error-total counter by exactly `k`. -/
theorem recordScalerError_nonNil_increments (ns res sc m kind : String) (i : Int)
    (k : Nat) (s : MetricsState)
    (hkind : kind = ScaledObjectResource ∨ kind = ScaledJobResource) (hk : 0 < k) :
    ∃ s', iterateRecordScalerError ns res sc i m kind k s = some s' ∧
      (kind = ScaledObjectResource →
        s'.scaledObjectScalerErrors (scalerKey ns res sc i m) =
          some ((s.scaledObjectScalerErrors (scalerKey ns res sc i m)).getD 0 + k) ∧
        s'.scaledObjectErrors [ns, res] =
          some ((s.scaledObjectErrors [ns, res]).getD 0 + k)) ∧
      (kind = ScaledJobResource →
        s'.scaledJobScalerErrors (scalerKey ns res sc i m) =
          some ((s.scaledJobScalerErrors (scalerKey ns res sc i m)).getD 0 + k) ∧
        s'.scaledJobErrors [ns, res] =
          some ((s.scaledJobErrors [ns, res]).getD 0 + k)) ∧
      s'.scalerErrorsTotal [] = some ((s.scalerErrorsTotal []).getD 0 + k) := by
  rcases hkind with rfl | rfl
  · obtain ⟨h1, h2, h3⟩ := bump_so_iterate_fields ns res sc m i k s hk
    exact ⟨_, iterate_so_eq ns res sc m i k s, fun _ => ⟨h1, h2⟩,
      fun hEq => absurd hEq so_ne_sj, h3⟩
  · obtain ⟨h1, h2, h3⟩ := bump_sj_iterate_fields ns res sc m i k s hk
    exact ⟨_, iterate_sj_eq ns res sc m i k s,
      fun hEq => absurd hEq.symm so_ne_sj, fun _ => ⟨h1, h2⟩, h3⟩

/-- Witness for C1: two non-nil-error calls from the fresh state on the
scaled-object kind leave all three counters at exactly 2. -/
theorem recordScalerError_nonNil_increments_witness :
    (ScaledObjectResource = ScaledObjectResource ∨
      ScaledObjectResource = ScaledJobResource) ∧ 0 < 2 ∧
    (∃ s', iterateRecordScalerError "ns1" "obj1" "scaler-a" 0 "queueLength"
        ScaledObjectResource 2 initialState = some s' ∧
      (ScaledObjectResource = ScaledObjectResource →
        s'.scaledObjectScalerErrors (scalerKey "ns1" "obj1" "scaler-a" 0 "queueLength") =
          some ((initialState.scaledObjectScalerErrors
            (scalerKey "ns1" "obj1" "scaler-a" 0 "queueLength")).getD 0 + 2) ∧
        s'.scaledObjectErrors ["ns1", "obj1"] =
          some ((initialState.scaledObjectErrors ["ns1", "obj1"]).getD 0 + 2)) ∧
      (ScaledObjectResource = ScaledJobResource →
        s'.scaledJobScalerErrors (scalerKey "ns1" "obj1" "scaler-a" 0 "queueLength") =
          some ((initialState.scaledJobScalerErrors
            (scalerKey "ns1" "obj1" "scaler-a" 0 "queueLength")).getD 0 + 2) ∧
        s'.scaledJobErrors ["ns1", "obj1"] =
          some ((initialState.scaledJobErrors ["ns1", "obj1"]).getD 0 + 2)) ∧
      s'.scalerErrorsTotal [] = some ((initialState.scalerErrorsTotal []).getD 0 + 2)) :=
  ⟨Or.inl rfl, by decide,
    recordScalerError_nonNil_increments "ns1" "obj1" "scaler-a" "queueLength"
      ScaledObjectResource 0 2 initialState (Or.inl rfl) (by decide)⟩

lemma recordScalerError_so_nil (ns res sc m : String) (i : Int) (s : MetricsState) :
    RecordScalerError ns res sc i m false ScaledObjectResource s =
      some { s with scaledObjectScalerErrors :=
        counterEnsureAt s.scaledObjectScalerErrors (scalerKey ns res sc i m) } := rfl

lemma recordScalerError_sj_nil (ns res sc m : String) (i : Int) (s : MetricsState) :
    RecordScalerError ns res sc i m false ScaledJobResource s =
      some { s with scaledJobScalerErrors :=
        counterEnsureAt s.scaledJobScalerErrors (scalerKey ns res sc i m) } := rfl

lemma recordScaledObjectError_so_nil (ns res : String) (s : MetricsState) :
    RecordScaledObjectError ns res false ScaledObjectResource s =
      some { s with scaledObjectErrors :=
        counterEnsureAt s.scaledObjectErrors [ns, res] } := rfl

lemma recordScaledObjectError_sj_nil (ns res : String) (s : MetricsState) :
    RecordScaledObjectError ns res false ScaledJobResource s =
      some { s with scaledJobErrors :=
        counterEnsureAt s.scaledJobErrors [ns, res] } := rfl

lemma recordScaledObjectError_so_step (ns res : String) (s : MetricsState) :
    RecordScaledObjectError ns res true ScaledObjectResource s =
      some { s with scaledObjectErrors :=
        counterIncAt s.scaledObjectErrors [ns, res] } := rfl

lemma recordScaledObjectError_sj_step (ns res : String) (s : MetricsState) :
    RecordScaledObjectError ns res true ScaledJobResource s =
      some { s with scaledJobErrors :=
        counterIncAt s.scaledJobErrors [ns, res] } := rfl

lemma counterEnsureAt_cases (d : CounterData) (key : SeriesKey) :
    (d key = none → counterEnsureAt d key key = some 0) ∧
    (∀ v, d key = some v → counterEnsureAt d key key = some v) ∧
    (∀ k, k ≠ key → counterEnsureAt d key k = d k) := by
  refine ⟨fun h => ?_, fun v h => ?_, fun k h => ?_⟩
  · simp [counterEnsureAt, h]
  · simp [counterEnsureAt, h]
  · simp [counterEnsureAt, h]

/-- Claim C2: with a nil error, `RecordScalerError` performs a
zero-initializing read of the per-scaler error counter — a missing data
point is created at 0 without incrementing, an existing data point keeps its
value, and every other data point of that series is untouched — and
`RecordScaledObjectError` with a nil error has the same duality on the
coarser (namespace, resourceName) tuple. -/
theorem recordScalerError_nil_zero_init (ns res sc m kind : String) (i : Int)
    (s : MetricsState)
    (hkind : kind = ScaledObjectResource ∨ kind = ScaledJobResource) :
    (∃ s', RecordScalerError ns res sc i m false kind s = some s' ∧
      (kind = ScaledObjectResource →
        (s.scaledObjectScalerErrors (scalerKey ns res sc i m) = none →
          s'.scaledObjectScalerErrors (scalerKey ns res sc i m) = some 0) ∧
        (∀ v, s.scaledObjectScalerErrors (scalerKey ns res sc i m) = some v →
          s'.scaledObjectScalerErrors (scalerKey ns res sc i m) = some v) ∧
        (∀ k, k ≠ scalerKey ns res sc i m →
          s'.scaledObjectScalerErrors k = s.scaledObjectScalerErrors k)) ∧
      (kind = ScaledJobResource →
        (s.scaledJobScalerErrors (scalerKey ns res sc i m) = none →
          s'.scaledJobScalerErrors (scalerKey ns res sc i m) = some 0) ∧
        (∀ v, s.scaledJobScalerErrors (scalerKey ns res sc i m) = some v →
          s'.scaledJobScalerErrors (scalerKey ns res sc i m) = some v) ∧
        (∀ k, k ≠ scalerKey ns res sc i m →
          s'.scaledJobScalerErrors k = s.scaledJobScalerErrors k))) ∧
    (∃ t', RecordScaledObjectError ns res false kind s = some t' ∧
      (kind = ScaledObjectResource →
        (s.scaledObjectErrors [ns, res] = none →
          t'.scaledObjectErrors [ns, res] = some 0) ∧
        (∀ v, s.scaledObjectErrors [ns, res] = some v →
          t'.scaledObjectErrors [ns, res] = some v) ∧
        (∀ k, k ≠ [ns, res] → t'.scaledObjectErrors k = s.scaledObjectErrors k)) ∧
      (kind = ScaledJobResource →
        (s.scaledJobErrors [ns, res] = none →
          t'.scaledJobErrors [ns, res] = some 0) ∧
        (∀ v, s.scaledJobErrors [ns, res] = some v →
          t'.scaledJobErrors [ns, res] = some v) ∧
        (∀ k, k ≠ [ns, res] → t'.scaledJobErrors k = s.scaledJobErrors k))) := by
  rcases hkind with rfl | rfl
  · refine ⟨⟨_, recordScalerError_so_nil ns res sc m i s, fun _ => ?_,
      fun hEq => absurd hEq so_ne_sj⟩,
      ⟨_, recordScaledObjectError_so_nil ns res s, fun _ => ?_,
      fun hEq => absurd hEq so_ne_sj⟩⟩
    · exact counterEnsureAt_cases s.scaledObjectScalerErrors (scalerKey ns res sc i m)
    · exact counterEnsureAt_cases s.scaledObjectErrors [ns, res]
  · refine ⟨⟨_, recordScalerError_sj_nil ns res sc m i s,
      fun hEq => absurd hEq.symm so_ne_sj, fun _ => ?_⟩,
      ⟨_, recordScaledObjectError_sj_nil ns res s,
      fun hEq => absurd hEq.symm so_ne_sj, fun _ => ?_⟩⟩
    · exact counterEnsureAt_cases s.scaledJobScalerErrors (scalerKey ns res sc i m)
    · exact counterEnsureAt_cases s.scaledJobErrors [ns, res]

/-- Witness for C2 at the fresh state on the scaled-job kind. -/
theorem recordScalerError_nil_zero_init_witness :
    (ScaledJobResource = ScaledObjectResource ∨
      ScaledJobResource = ScaledJobResource) ∧
    (∃ s', RecordScalerError "n" "r" "s" 3 "m" false ScaledJobResource initialState =
        some s' ∧
      (ScaledJobResource = ScaledObjectResource →
        (initialState.scaledObjectScalerErrors (scalerKey "n" "r" "s" 3 "m") = none →
          s'.scaledObjectScalerErrors (scalerKey "n" "r" "s" 3 "m") = some 0) ∧
        (∀ v, initialState.scaledObjectScalerErrors (scalerKey "n" "r" "s" 3 "m") = some v →
          s'.scaledObjectScalerErrors (scalerKey "n" "r" "s" 3 "m") = some v) ∧
        (∀ k, k ≠ scalerKey "n" "r" "s" 3 "m" →
          s'.scaledObjectScalerErrors k = initialState.scaledObjectScalerErrors k)) ∧
      (ScaledJobResource = ScaledJobResource →
        (initialState.scaledJobScalerErrors (scalerKey "n" "r" "s" 3 "m") = none →
          s'.scaledJobScalerErrors (scalerKey "n" "r" "s" 3 "m") = some 0) ∧
        (∀ v, initialState.scaledJobScalerErrors (scalerKey "n" "r" "s" 3 "m") = some v →
          s'.scaledJobScalerErrors (scalerKey "n" "r" "s" 3 "m") = some v) ∧
        (∀ k, k ≠ scalerKey "n" "r" "s" 3 "m" →
          s'.scaledJobScalerErrors k = initialState.scaledJobScalerErrors k))) ∧
    (∃ t', RecordScaledObjectError "n" "r" false ScaledJobResource initialState =
        some t' ∧
      (ScaledJobResource = ScaledObjectResource →
        (initialState.scaledObjectErrors ["n", "r"] = none →
          t'.scaledObjectErrors ["n", "r"] = some 0) ∧
        (∀ v, initialState.scaledObjectErrors ["n", "r"] = some v →
          t'.scaledObjectErrors ["n", "r"] = some v) ∧
        (∀ k, k ≠ ["n", "r"] → t'.scaledObjectErrors k = initialState.scaledObjectErrors k)) ∧
      (ScaledJobResource = ScaledJobResource →
        (initialState.scaledJobErrors ["n", "r"] = none →
          t'.scaledJobErrors ["n", "r"] = some 0) ∧
        (∀ v, initialState.scaledJobErrors ["n", "r"] = some v →
          t'.scaledJobErrors ["n", "r"] = some v) ∧
        (∀ k, k ≠ ["n", "r"] → t'.scaledJobErrors k = initialState.scaledJobErrors k))) :=
  ⟨Or.inr rfl,
    recordScalerError_nil_zero_init "n" "r" "s" "m" ScaledJobResource 3 initialState
      (Or.inr rfl)⟩

lemma recordScalerMetric_so_step (ns res sc m : String) (i : Int) (v : ℚ)
    (s : MetricsState) :
    RecordScalerMetric ns res sc i m v ScaledObjectResource s =
      some { s with
        scaledObjectScalerMetricsValue :=
          gaugeSetAt s.scaledObjectScalerMetricsValue (scalerKey ns res sc i m) v } := rfl

lemma recordScalerMetric_sj_step (ns res sc m : String) (i : Int) (v : ℚ)
    (s : MetricsState) :
    RecordScalerMetric ns res sc i m v ScaledJobResource s =
      some { s with
        scaledJobScalerMetricsValue :=
          gaugeSetAt s.scaledJobScalerMetricsValue (scalerKey ns res sc i m) v } := rfl

/-- Claim C3: for every input and known resourceKind, `RecordScalerMetric`
sets the corresponding metrics-value gauge at the resolved label tuple to
exactly the supplied value, regardless of the gauge's prior value
(last-write-wins). -/
theorem recordScalerMetric_sets_value (ns res sc m kind : String) (i : Int) (v : ℚ)
    (s : MetricsState)
    (hkind : kind = ScaledObjectResource ∨ kind = ScaledJobResource) :
    ∃ s', RecordScalerMetric ns res sc i m v kind s = some s' ∧
      (kind = ScaledObjectResource →
        s'.scaledObjectScalerMetricsValue (scalerKey ns res sc i m) = some v) ∧
      (kind = ScaledJobResource →
        s'.scaledJobScalerMetricsValue (scalerKey ns res sc i m) = some v) := by
  rcases hkind with rfl | rfl
  · exact ⟨_, recordScalerMetric_so_step ns res sc m i v s,
      fun _ => gaugeSetAt_self _ _ _, fun hEq => absurd hEq so_ne_sj⟩
  · exact ⟨_, recordScalerMetric_sj_step ns res sc m i v s,
      fun hEq => absurd hEq.symm so_ne_sj, fun _ => gaugeSetAt_self _ _ _⟩

/-- Witness for C3: the end-to-end scenario of the specification — from the
fresh state, recording 42.0 for (ns1, obj1, scaler-a, 0, queueLength) on the
scaled-object kind makes the ScaledObject metrics-value series read 42.0 at
that tuple. -/
theorem recordScalerMetric_sets_value_witness :
    (ScaledObjectResource = ScaledObjectResource ∨
      ScaledObjectResource = ScaledJobResource) ∧
    (∃ s', RecordScalerMetric "ns1" "obj1" "scaler-a" 0 "queueLength" 42
        ScaledObjectResource initialState = some s' ∧
      (ScaledObjectResource = ScaledObjectResource →
        s'.scaledObjectScalerMetricsValue
          (scalerKey "ns1" "obj1" "scaler-a" 0 "queueLength") = some 42) ∧
      (ScaledObjectResource = ScaledJobResource →
        s'.scaledJobScalerMetricsValue
          (scalerKey "ns1" "obj1" "scaler-a" 0 "queueLength") = some 42)) :=
  ⟨Or.inl rfl,
    recordScalerMetric_sets_value "ns1" "obj1" "scaler-a" "queueLength"
      ScaledObjectResource 0 42 initialState (Or.inl rfl)⟩

/-- Claim C4: for every resourceKind other than the two known kinds, each
routing operation returns the state unchanged — no series is modified, no
data point is created, nothing is logged, and no label lookup that could
fail (and hence panic or error) is performed. -/
theorem unknown_kind_noop (ns res sc m kind : String) (i : Int) (v w : ℚ)
    (err active : Bool) (s : MetricsState)
    (h1 : kind ≠ ScaledObjectResource) (h2 : kind ≠ ScaledJobResource) :
    RecordScalerMetric ns res sc i m v kind s = some s ∧
    RecordScalerLatency ns res sc i m w kind s = some s ∧
    RecordScalerActive ns res sc i m active kind s = some s ∧
    RecordScalerError ns res sc i m err kind s = some s ∧
    RecordScaledObjectError ns res err kind s = some s := by
  refine ⟨?_, ?_, ?_, ?_, ?_⟩
  · simp [RecordScalerMetric, getLabels, h1, h2]
  · simp [RecordScalerLatency, getLabels, h1, h2]
  · simp [RecordScalerActive, getLabels, h1, h2]
  · simp [RecordScalerError, getLabels, h1, h2]
  · simp [RecordScaledObjectError, h1, h2]

/-- Witness for C4 at the kind string used for trigger authentications,
which the routing operations do not recognize. -/
theorem unknown_kind_noop_witness :
    TriggerAuthenticationResource ≠ ScaledObjectResource ∧
    TriggerAuthenticationResource ≠ ScaledJobResource ∧
    (RecordScalerMetric "n" "r" "s" 1 "m" 5 TriggerAuthenticationResource
        initialState = some initialState ∧
      RecordScalerLatency "n" "r" "s" 1 "m" 7 TriggerAuthenticationResource
        initialState = some initialState ∧
      RecordScalerActive "n" "r" "s" 1 "m" true TriggerAuthenticationResource
        initialState = some initialState ∧
      RecordScalerError "n" "r" "s" 1 "m" true TriggerAuthenticationResource
        initialState = some initialState ∧
      RecordScaledObjectError "n" "r" true TriggerAuthenticationResource
        initialState = some initialState) :=
  ⟨by decide, by decide,
    unknown_kind_noop "n" "r" "s" "m" TriggerAuthenticationResource 1 5 7 true true
      initialState (by decide) (by decide)⟩

/-- Counterexample to C5 as stated: on an unrecognized resourceKind,
`getLabels` does not panic (its embedding, in which `none` models a panic,
returns a `some` value): it returns the nil label map. -/
theorem getLabels_unknown_does_not_panic :
    getLabels "ns" "app" "cpu" 0 "m" "bogus_kind" ≠ none ∧
    getLabels "ns" "app" "cpu" 0 "m" "bogus_kind" = some [] := by
  exact ⟨by decide, rfl⟩

/-- Claim C5 (amended): for an unrecognized resourceKind, the label-building
helper `getLabels` returns the nil label map below an unreachable-code
comment — it neither panics nor returns an explicit error — while the
routing functions silently no-op for the same unrecognized kinds, so the nil
map never reaches a metric vector. -/
theorem getLabels_unknown_returns_nil (ns res sc m kind : String) (i : Int)
    (s : MetricsState)
    (h1 : kind ≠ ScaledObjectResource) (h2 : kind ≠ ScaledJobResource) :
    getLabels ns res sc i m kind = some [] ∧
    RecordScalerMetric ns res sc i m 0 kind s = some s ∧
    RecordScalerError ns res sc i m true kind s = some s := by
  refine ⟨?_, ?_, ?_⟩
  · simp [getLabels, h1, h2]
  · simp [RecordScalerMetric, getLabels, h1, h2]
  · simp [RecordScalerError, getLabels, h1, h2]

/-- Witness for the amended C5 at a concrete unrecognized kind. -/
theorem getLabels_unknown_returns_nil_witness :
    "bogus_kind" ≠ ScaledObjectResource ∧ "bogus_kind" ≠ ScaledJobResource ∧
    (getLabels "n" "r" "s" 2 "m" "bogus_kind" = some [] ∧
      RecordScalerMetric "n" "r" "s" 2 "m" 0 "bogus_kind" initialState =
        some initialState ∧
      RecordScalerError "n" "r" "s" 2 "m" true "bogus_kind" initialState =
        some initialState) :=
  ⟨by decide, by decide,
    getLabels_unknown_returns_nil "n" "r" "s" "m" "bogus_kind" 2 initialState
      (by decide) (by decide)⟩

/-- Claim C6: an empty namespace argument is normalized to the literal
string "default" before addressing the resource-totals gauge, so for every
crdType and prior state the empty-namespace call produces exactly the same
state change as the explicit "default" call, for both the increment and the
decrement operation. -/
theorem crdTotal_empty_namespace_is_default (crdType : String) (s : MetricsState) :
    IncrementCRDTotal crdType "" s = IncrementCRDTotal crdType "default" s ∧
    DecrementCRDTotal crdType "" s = DecrementCRDTotal crdType "default" s :=
  ⟨rfl, rfl⟩

/-- Claim C7: incrementing or decrementing the trigger-totals gauge with an
empty triggerType leaves the state unchanged — no data point is created or
modified. -/
theorem triggerTotal_empty_noop (s : MetricsState) :
    IncrementTriggerTotal "" s = some s ∧ DecrementTriggerTotal "" s = some s :=
  ⟨rfl, rfl⟩

lemma recordScalerActive_so_step (ns res sc m : String) (i : Int) (active : Bool)
    (s : MetricsState) :
    RecordScalerActive ns res sc i m active ScaledObjectResource s =
      some { s with
        scaledObjectScalerActive :=
          gaugeSetAt s.scaledObjectScalerActive (scalerKey ns res sc i m)
            (if active then 1 else 0) } := rfl

lemma recordScalerActive_sj_step (ns res sc m : String) (i : Int) (active : Bool)
    (s : MetricsState) :
    RecordScalerActive ns res sc i m active ScaledJobResource s =
      some { s with
        scaledJobScalerActive :=
          gaugeSetAt s.scaledJobScalerActive (scalerKey ns res sc i m)
            (if active then 1 else 0) } := rfl

/-- Claim C8: for every valid label tuple and known resourceKind,
`RecordScalerActive` with `active = true` sets the corresponding activity
gauge at the resolved tuple to exactly 1, and with `active = false` to
exactly 0, regardless of the gauge's prior value. -/
theorem recordScalerActive_sets_binary (ns res sc m kind : String) (i : Int)
    (active : Bool) (s : MetricsState)
    (hkind : kind = ScaledObjectResource ∨ kind = ScaledJobResource) :
    ∃ s', RecordScalerActive ns res sc i m active kind s = some s' ∧
      (kind = ScaledObjectResource →
        s'.scaledObjectScalerActive (scalerKey ns res sc i m) =
          some (if active then (1 : ℚ) else 0)) ∧
      (kind = ScaledJobResource →
        s'.scaledJobScalerActive (scalerKey ns res sc i m) =
          some (if active then (1 : ℚ) else 0)) := by
  rcases hkind with rfl | rfl
  · exact ⟨_, recordScalerActive_so_step ns res sc m i active s,
      fun _ => gaugeSetAt_self _ _ _, fun hEq => absurd hEq so_ne_sj⟩
  · exact ⟨_, recordScalerActive_sj_step ns res sc m i active s,
      fun hEq => absurd hEq.symm so_ne_sj, fun _ => gaugeSetAt_self _ _ _⟩

/-- Witness for C8: an active scaled-object observation from the fresh state
reads exactly 1. -/
theorem recordScalerActive_sets_binary_witness :
    (ScaledObjectResource = ScaledObjectResource ∨
      ScaledObjectResource = ScaledJobResource) ∧
    (∃ s', RecordScalerActive "n" "r" "s" 0 "m" true ScaledObjectResource
        initialState = some s' ∧
      (ScaledObjectResource = ScaledObjectResource →
        s'.scaledObjectScalerActive (scalerKey "n" "r" "s" 0 "m") =
          some (if true then (1 : ℚ) else 0)) ∧
      (ScaledObjectResource = ScaledJobResource →
        s'.scaledJobScalerActive (scalerKey "n" "r" "s" 0 "m") =
          some (if true then (1 : ℚ) else 0))) :=
  ⟨Or.inl rfl,
    recordScalerActive_sets_binary "n" "r" "s" "m" ScaledObjectResource 0 true
      initialState (Or.inl rfl)⟩

lemma recordScalerLatency_so_step (ns res sc m : String) (i : Int) (w : ℚ)
    (s : MetricsState) :
    RecordScalerLatency ns res sc i m w ScaledObjectResource s =
      some { s with
        scaledObjectScalerMetricsLatency :=
          gaugeSetAt s.scaledObjectScalerMetricsLatency (scalerKey ns res sc i m) w } := rfl

lemma recordScalerLatency_sj_step (ns res sc m : String) (i : Int) (w : ℚ)
    (s : MetricsState) :
    RecordScalerLatency ns res sc i m w ScaledJobResource s =
      some { s with
        scaledJobScalerMetricsLatency :=
          gaugeSetAt s.scaledJobScalerMetricsLatency (scalerKey ns res sc i m) w } := rfl

lemma recordScalableObjectLatency_step (ns name : String) (b : Bool) (w : ℚ)
    (s : MetricsState) :
    RecordScalableObjectLatency ns name b w s =
      some { s with
        internalLoopLatency :=
          gaugeSetAt s.internalLoopLatency
            [ns, if b then "scaledobject" else "scaledjob", name] w } := rfl

lemma recordBuildInfo_step (v gc gov goos goarch : String) (s : MetricsState) :
    RecordBuildInfo v gc gov goos goarch s =
      some { s with buildInfo := gaugeSetAt s.buildInfo [v, gc, gov, goos, goarch] 1 } := rfl

lemma incrementCRDTotal_step (crd nsArg : String) (s : MetricsState) :
    IncrementCRDTotal crd nsArg s =
      some { s with
        crdTotals :=
          gaugeAddAt s.crdTotals [crd, if nsArg = "" then "default" else nsArg] 1 } := rfl

lemma decrementCRDTotal_step (crd nsArg : String) (s : MetricsState) :
    DecrementCRDTotal crd nsArg s =
      some { s with
        crdTotals :=
          gaugeAddAt s.crdTotals [crd, if nsArg = "" then "default" else nsArg] (-1) } := rfl

lemma incrementTriggerTotal_nonempty (t : String) (ht : t ≠ "") (s : MetricsState) :
    IncrementTriggerTotal t s =
      some { s with triggerTotals := gaugeAddAt s.triggerTotals [t] 1 } := by
  simp [IncrementTriggerTotal, ht, gaugeWithValuesAdd, resolveLabelValues,
    triggerTotalsLabels]

lemma decrementTriggerTotal_nonempty (t : String) (ht : t ≠ "") (s : MetricsState) :
    DecrementTriggerTotal t s =
      some { s with triggerTotals := gaugeAddAt s.triggerTotals [t] (-1) } := by
  simp [DecrementTriggerTotal, ht, gaugeWithValuesAdd, resolveLabelValues,
    triggerTotalsLabels]

lemma recordScalerMetric_isSome (ns res sc m kind : String) (i : Int) (q : ℚ)
    (s : MetricsState) : (RecordScalerMetric ns res sc i m q kind s).isSome = true := by
  by_cases h1 : kind = ScaledObjectResource
  · subst h1; rw [recordScalerMetric_so_step]; rfl
  by_cases h2 : kind = ScaledJobResource
  · subst h2; rw [recordScalerMetric_sj_step]; rfl
  simp [RecordScalerMetric, getLabels, h1, h2]

lemma recordScalerLatency_isSome (ns res sc m kind : String) (i : Int) (q : ℚ)
    (s : MetricsState) : (RecordScalerLatency ns res sc i m q kind s).isSome = true := by
  by_cases h1 : kind = ScaledObjectResource
  · subst h1; rw [recordScalerLatency_so_step]; rfl
  by_cases h2 : kind = ScaledJobResource
  · subst h2; rw [recordScalerLatency_sj_step]; rfl
  simp [RecordScalerLatency, getLabels, h1, h2]

lemma recordScalerActive_isSome (ns res sc m kind : String) (i : Int) (active : Bool)
    (s : MetricsState) :
    (RecordScalerActive ns res sc i m active kind s).isSome = true := by
  by_cases h1 : kind = ScaledObjectResource
  · subst h1; rw [recordScalerActive_so_step]; rfl
  by_cases h2 : kind = ScaledJobResource
  · subst h2; rw [recordScalerActive_sj_step]; rfl
  simp [RecordScalerActive, getLabels, h1, h2]

lemma recordScalerError_isSome (ns res sc m kind : String) (i : Int) (err : Bool)
    (s : MetricsState) :
    (RecordScalerError ns res sc i m err kind s).isSome = true := by
  by_cases h1 : kind = ScaledObjectResource
  · subst h1
    cases err
    · rw [recordScalerError_so_nil]; rfl
    · rw [recordScalerError_so_step]; rfl
  by_cases h2 : kind = ScaledJobResource
  · subst h2
    cases err
    · rw [recordScalerError_sj_nil]; rfl
    · rw [recordScalerError_sj_step]; rfl
  simp [RecordScalerError, getLabels, h1, h2]

lemma recordScaledObjectError_isSome (ns res kind : String) (err : Bool)
    (s : MetricsState) :
    (RecordScaledObjectError ns res err kind s).isSome = true := by
  by_cases h1 : kind = ScaledObjectResource
  · subst h1
    cases err
    · rw [recordScaledObjectError_so_nil]; rfl
    · rw [recordScaledObjectError_so_step]; rfl
  by_cases h2 : kind = ScaledJobResource
  · subst h2
    cases err
    · rw [recordScaledObjectError_sj_nil]; rfl
    · rw [recordScaledObjectError_sj_step]; rfl
  simp [RecordScaledObjectError, h1, h2]

lemma triggerTotal_isSome (t : String) (s : MetricsState) :
    (IncrementTriggerTotal t s).isSome = true ∧
    (DecrementTriggerTotal t s).isSome = true := by
  by_cases ht : t = ""
  · subst ht; exact ⟨rfl, rfl⟩
  · rw [incrementTriggerTotal_nonempty t ht, decrementTriggerTotal_nonempty t ht]
    exact ⟨rfl, rfl⟩

/-- Claim C9: every public recording operation is total and returns without
surfacing an error to the caller — no panic, no propagated error, no retry:
the only fallible registry interaction the module performs, the
get-or-create of the zero-initializing paths, has its error logged and
discarded inside the operation. -/
theorem recording_ops_never_surface_errors
    (ns res sc m kind name t crd v gc gov goos goarch : String) (i : Int)
    (q w : ℚ) (err active isSO : Bool) (s : MetricsState) :
    (RecordScalerMetric ns res sc i m q kind s).isSome = true ∧
    (RecordScalerLatency ns res sc i m q kind s).isSome = true ∧
    (RecordScalableObjectLatency ns name isSO w s).isSome = true ∧
    (RecordScalerActive ns res sc i m active kind s).isSome = true ∧
    (RecordScalerError ns res sc i m err kind s).isSome = true ∧
    (RecordScaledObjectError ns res err kind s).isSome = true ∧
    (RecordBuildInfo v gc gov goos goarch s).isSome = true ∧
    (IncrementTriggerTotal t s).isSome = true ∧
    (DecrementTriggerTotal t s).isSome = true ∧
    (IncrementCRDTotal crd ns s).isSome = true ∧
    (DecrementCRDTotal crd ns s).isSome = true := by
  refine ⟨recordScalerMetric_isSome ns res sc m kind i q s,
    recordScalerLatency_isSome ns res sc m kind i q s, ?_,
    recordScalerActive_isSome ns res sc m kind i active s,
    recordScalerError_isSome ns res sc m kind i err s,
    recordScaledObjectError_isSome ns res kind err s, ?_,
    (triggerTotal_isSome t s).1, (triggerTotal_isSome t s).2, ?_, ?_⟩
  · rw [recordScalableObjectLatency_step]; rfl
  · rw [recordBuildInfo_step]; rfl
  · rw [incrementCRDTotal_step]; rfl
  · rw [decrementCRDTotal_step]; rfl

/-- Claim C10: the live-count gauges are not clamped at zero: decrementing
the trigger-totals gauge at a non-empty, never-observed triggerType creates
its data point at -1, and decrementing the resource-totals gauge at a
never-observed (crdType, namespace) tuple creates its data point at -1. -/
theorem decrement_unobserved_goes_negative (t crd nsArg : String) (s : MetricsState)
    (ht : t ≠ "") (htNone : s.triggerTotals [t] = none)
    (hcNone : s.crdTotals [crd, if nsArg = "" then "default" else nsArg] = none) :
    (∃ s', DecrementTriggerTotal t s = some s' ∧ s'.triggerTotals [t] = some (-1)) ∧
    (∃ s', DecrementCRDTotal crd nsArg s = some s' ∧
      s'.crdTotals [crd, if nsArg = "" then "default" else nsArg] = some (-1)) := by
  constructor
  · exact ⟨_, decrementTriggerTotal_nonempty t ht s, by simp [gaugeAddAt, htNone]⟩
  · exact ⟨_, decrementCRDTotal_step crd nsArg s, by simp [gaugeAddAt, hcNone]⟩

/-- Witness for C10: from the fresh state, a decrement-before-increment on
trigger type "cpu" and on ("ScaledObject", empty namespace) drives both
gauges to -1. -/
theorem decrement_unobserved_goes_negative_witness :
    "cpu" ≠ "" ∧ initialState.triggerTotals ["cpu"] = none ∧
    initialState.crdTotals ["ScaledObject", if "" = "" then "default" else ""] = none ∧
    ((∃ s', DecrementTriggerTotal "cpu" initialState = some s' ∧
        s'.triggerTotals ["cpu"] = some (-1)) ∧
      (∃ s', DecrementCRDTotal "ScaledObject" "" initialState = some s' ∧
        s'.crdTotals ["ScaledObject", if "" = "" then "default" else ""] = some (-1))) :=
  ⟨by decide, rfl, rfl,
    decrement_unobserved_goes_negative "cpu" "ScaledObject" "" initialState
      (by decide) rfl rfl⟩

end Prommetrics
